import Mathlib

/-!
Shallow embedding of `lib/passport-negotiate/strategy.js` (passport-negotiate):
the HTTP Negotiate (SPNEGO/Kerberos) passport strategy.  The kerberos engine
(`kerberos.initializeServer`, `server.step`) and the application `verify`
callback are external collaborators; each authentication attempt observes them
through a per-attempt oracle (`Env`).  Terminal passport actions
(`fail`/`error`/`redirect`/`success`) become an `Action` value, console output
becomes an accumulated log list, and the mutations of `req` / `req.session`
become an updated `Request` value.
-/

namespace PassportNegotiate

/-- Session object attached to a request; the strategy writes
`session.authenticatedPrincipal` and `session.delegatedCredentialsCache`.
Absent fields are `none`. -/
structure Session where
  authenticatedPrincipal : Option String := none
  delegatedCredentialsCache : Option String := none
deriving Repr, DecidableEq

/-- Express request as seen by the strategy: the `authorization` header
(`req.get("authorization")`), the optional session object, and the two
request-scratch attributes the strategy may write. -/
structure Request where
  authorization : Option String := none
  session : Option Session := none
  authenticatedPrincipal : Option String := none
  delegatedCredentialsCache : Option String := none
deriving Repr, DecidableEq

/-- Construction-time configuration fields stored on the strategy instance
(`_passReqToCallback`, `_servicePrincipalName`, `_verbose`,
`_enableConstrainedDelegation`); absent options are JS `undefined`, hence
falsy booleans / `none`. -/
structure StrategyConfig where
  passReqToCallback : Bool := false
  servicePrincipalName : Option String := none
  verbose : Bool := false
  enableConstrainedDelegation : Bool := false
deriving Repr, DecidableEq

/-- Per-call options of `Strategy.prototype.authenticate`; `noUserRedirect`
is the only recognized field. -/
structure AuthOptions where
  noUserRedirect : Option String := none
deriving Repr, DecidableEq

/-- Modelled from the spec: `lib/passport-negotiate/errors/nousererror.js` is
not among the provided sources.  Per the spec, the `NoUserError` passed to
`fail` always carries the authenticated principal so upstream handlers can
log/audit which identity was rejected. -/
structure NoUserError where
  principal : String
deriving Repr, DecidableEq

/-- Argument of a `self.fail(...)` call: either a challenge string
(`fail('Negotiate')` on a missing header) or a `NoUserError`
(`fail(new NoUserError(principal))` when `verify` reports no user). -/
inductive FailArg where
  | challenge (s : String)
  | noUser (e : NoUserError)
deriving Repr, DecidableEq

/-- Terminal passport action emitted by one `authenticate` call. -/
inductive Action (U I : Type) where
  | fail (arg : FailArg)
  | error (msg : String)
  | redirect (url : String)
  | success (user : U) (info : Option I)
deriving Repr, DecidableEq

/-- Outcome the application `verify` callback delivers to its completion
handler `verified(err, user, info)`: an error, a falsy `user`, or a user
value with optional info. -/
inductive VerifyOutcome (U I : Type) where
  | err (e : String)
  | noUser
  | user (u : U) (info : Option I)
deriving Repr, DecidableEq

/-- Per-attempt oracle for the external collaborators: the result of
`kerberos.initializeServer` (`initErr`), the result of `server.step`
(`stepErr`), the state the server handle carries afterwards
(`serverUsername`, `serverDelegCache`), and the outcome the application
`verify` callback reports. -/
structure Env (U I : Type) where
  initErr : Option String := none
  stepErr : Option String := none
  serverUsername : String := ""
  serverDelegCache : Option String := none
  verifyOutcome : VerifyOutcome U I := .noUser
deriving Repr, DecidableEq

/-- Result of one `authenticate` call: the request after any attribute
writes, the terminal action, the console output in order, and which
collaborators were invoked. -/
structure AuthResult (U I : Type) where
  req : Request
  action : Action U I
  logs : List String
  initCalled : Bool
  stepCalled : Bool
  verifyCalled : Bool
deriving Repr, DecidableEq

/-- Prefix test on strings, by character list (JS `startsWith`, and
`lastIndexOf(p, 0) === 0`, which holds exactly when the string starts
with `p`). -/
def strStartsWith (s p : String) : Bool :=
  p.toList.isPrefixOf s.toList

/-- Diagnostic line printed by `failIfError(err, step)`:
`"authentication failed at operation '<step>' with error: <err>"`.  This line
goes to `console.error`; the terminal action itself is `self.error(err)`. -/
def failMsg (step err : String) : String :=
  "authentication failed at operation '" ++ step ++ "' with error: " ++ err

/-- Shallow embedding of `Strategy.prototype.authenticate`.  The JS test
`auth.lastIndexOf('Negotiate ', 0) !== 0` holds exactly when `auth` does not
start with `"Negotiate "` (embedded as `strStartsWith`), and `if (!auth)` fires when the header is missing
or the empty string.  The inner `failIfError(err, 'clean')` re-checks the
step callback's `err`, which is already known falsy on that path, so it
never fires and `verify` is always invoked there. -/
def authenticate {U I : Type} (cfg : StrategyConfig) (req : Request)
    (options : AuthOptions) (env : Env U I) : AuthResult U I :=
  match req.authorization with
  | none =>
      { req := req, action := .fail (.challenge "Negotiate")
        logs := if cfg.verbose then ["No authorization header"] else []
        initCalled := false, stepCalled := false, verifyCalled := false }
  | some auth =>
    if auth = "" then
      { req := req, action := .fail (.challenge "Negotiate")
        logs := if cfg.verbose then ["No authorization header"] else []
        initCalled := false, stepCalled := false, verifyCalled := false }
    else if ¬ strStartsWith auth "Negotiate " then
      { req := req
        action := .error ("Malformed authentication token: " ++ auth)
        logs := if cfg.verbose then ["Malformed authentication token: " ++ auth] else []
        initCalled := false, stepCalled := false, verifyCalled := false }
    else
      let token := auth.drop ("Negotiate ".length)
      if strStartsWith token "TlR" then
        { req := req
          action := .error ("Client sent NTLM header: " ++ token)
          logs := if cfg.verbose then ["Client sent NTLM header: " ++ token] else []
          initCalled := false, stepCalled := false, verifyCalled := false }
      else
        let servicePrincipalName := cfg.servicePrincipalName.getD "HTTP"
        let preLogs := if cfg.verbose then ["InitServer " ++ servicePrincipalName] else []
        match env.initErr with
        | some e =>
            { req := req, action := .error e
              logs := preLogs ++ [failMsg "init" e]
              initCalled := true, stepCalled := false, verifyCalled := false }
        | none =>
          match env.stepErr with
          | some e =>
              { req := req, action := .error e
                logs := preLogs ++ [failMsg "step" e]
                initCalled := true, stepCalled := true, verifyCalled := false }
          | none =>
            let principal := env.serverUsername
            let req₁ : Request :=
              { req with
                session := req.session.map
                  (fun s => { s with authenticatedPrincipal := some principal })
                authenticatedPrincipal := some principal }
            let req₂ : Request :=
              if cfg.enableConstrainedDelegation then
                { req₁ with
                  session := req₁.session.map
                    (fun s => { s with delegatedCredentialsCache := env.serverDelegCache })
                  delegatedCredentialsCache := env.serverDelegCache }
              else req₁
            match env.verifyOutcome with
            | .err e =>
                { req := req₂, action := .error e, logs := preLogs
                  initCalled := true, stepCalled := true, verifyCalled := true }
            | .noUser =>
              match options.noUserRedirect with
              | some url =>
                  { req := req₂, action := .redirect url
                    logs := preLogs ++ (if cfg.verbose then ["redirecting to: " ++ url] else [])
                    initCalled := true, stepCalled := true, verifyCalled := true }
              | none =>
                  { req := req₂, action := .fail (.noUser ⟨principal⟩), logs := preLogs
                    initCalled := true, stepCalled := true, verifyCalled := true }
            | .user u info =>
                { req := req₂, action := .success u info, logs := preLogs
                  initCalled := true, stepCalled := true, verifyCalled := true }

/-- Constructor argument in the dynamically typed JS call
`new Strategy(options, verify)`: absent, a function, or an options object. -/
inductive JsArg (F : Type) where
  | undefined
  | fn (f : F)
  | obj (o : StrategyConfig)
deriving Repr, DecidableEq

/-- Truthiness of a constructor argument: only `undefined` is falsy here
(functions and objects are truthy in JS). -/
def JsArg.falsy {F : Type} : JsArg F → Bool
  | .undefined => true
  | _ => false

/-- Strategy instance fields set by a successful constructor call. -/
structure StrategyInstance (F : Type) where
  name : String
  verify : JsArg F
  config : StrategyConfig
deriving Repr, DecidableEq

/-- Shallow embedding of the `Strategy` constructor.  When `options` is a
function it becomes the verify callback and the options default to `{}`;
then a falsy `verify` throws.  Reading the option fields off `undefined`
would raise a JS `TypeError`, modelled as the `Except.error` on that path. -/
def strategyNew {F : Type} (options₀ verify₀ : JsArg F) :
    Except String (StrategyInstance F) :=
  let options : JsArg F :=
    match options₀ with
    | .fn _ => .obj {}
    | _ => options₀
  let verify : JsArg F :=
    match options₀ with
    | .fn f => .fn f
    | _ => verify₀
  if verify.falsy then
    .error "negotiate authentication strategy requires a verify function"
  else
    match options with
    | .obj o => .ok { name := "negotiate", verify := verify, config := o }
    | _ => .error "TypeError: Cannot read properties of undefined"

/-- Substring containment on strings, via infix on the character lists. -/
def strContainsSubstr (s t : String) : Prop :=
  t.toList <:+: s.toList

instance (s t : String) : Decidable (strContainsSubstr s t) := by
  unfold strContainsSubstr
  infer_instance

/-! ## Helper lemmas shared across the claims -/

lemma strContains_suffix (p s : String) : strContainsSubstr (p ++ s) s := by
  show s.toList <:+: (p ++ s).toList
  have h : (p ++ s).toList = p.toList ++ s.toList := by
    simp [String.toList, String.data_append]
  rw [h]
  exact (List.suffix_append p.toList s.toList).isInfix

lemma strContains_middle (p s q : String) : strContainsSubstr (p ++ s ++ q) s := by
  show s.toList <:+: (p ++ s ++ q).toList
  have h : (p ++ s ++ q).toList = p.toList ++ s.toList ++ q.toList := by
    simp [String.toList, String.data_append]
  rw [h]
  exact ⟨p.toList, q.toList, rfl⟩

lemma failMsg_contains_step (s e : String) : strContainsSubstr (failMsg s e) s := by
  have := strContains_middle "authentication failed at operation '" s ("' with error: " ++ e)
  simpa [failMsg, ← String.append_assoc] using this

lemma failMsg_contains_err (s e : String) : strContainsSubstr (failMsg s e) e := by
  have := strContains_suffix ("authentication failed at operation '" ++ s ++ "' with error: ") e
  simpa [failMsg, ← String.append_assoc] using this

/-- Reduction of `authenticate` when credential initialization fails. -/
lemma authenticate_initFail {U I : Type} (cfg : StrategyConfig) (req : Request)
    (options : AuthOptions) (env : Env U I) (a e : String)
    (ha : req.authorization = some a) (hne : a ≠ "")
    (hpre : strStartsWith a "Negotiate " = true)
    (hnt : strStartsWith (a.drop ("Negotiate ".length)) "TlR" = false)
    (hi : env.initErr = some e) :
    authenticate cfg req options env =
      { req := req, action := .error e
        logs := (if cfg.verbose then ["InitServer " ++ cfg.servicePrincipalName.getD "HTTP"] else [])
            ++ [failMsg "init" e]
        initCalled := true, stepCalled := false, verifyCalled := false } := by
  simp [authenticate, ha, hne, hpre, hnt, hi]

/-- Reduction of `authenticate` when the accept-token step fails. -/
lemma authenticate_stepFail {U I : Type} (cfg : StrategyConfig) (req : Request)
    (options : AuthOptions) (env : Env U I) (a e : String)
    (ha : req.authorization = some a) (hne : a ≠ "")
    (hpre : strStartsWith a "Negotiate " = true)
    (hnt : strStartsWith (a.drop ("Negotiate ".length)) "TlR" = false)
    (hi : env.initErr = none) (hs : env.stepErr = some e) :
    authenticate cfg req options env =
      { req := req, action := .error e
        logs := (if cfg.verbose then ["InitServer " ++ cfg.servicePrincipalName.getD "HTTP"] else [])
            ++ [failMsg "step" e]
        initCalled := true, stepCalled := true, verifyCalled := false } := by
  simp [authenticate, ha, hne, hpre, hnt, hi, hs]

/-! ## The claims -/

/-- Claim C1: on a request whose authorization header is absent or empty, the
terminal action is exactly the `Negotiate` challenge (`fail('Negotiate')`),
never any other action, and the negotiation engine is not invoked. -/
theorem C1_missing_header_challenge {U I : Type} (cfg : StrategyConfig)
    (req : Request) (options : AuthOptions) (env : Env U I)
    (h : req.authorization = none ∨ req.authorization = some "") :
    (authenticate cfg req options env).action = .fail (.challenge "Negotiate") ∧
    (authenticate cfg req options env).initCalled = false ∧
    (authenticate cfg req options env).stepCalled = false ∧
    (authenticate cfg req options env).verifyCalled = false := by
  rcases h with h | h <;> simp [authenticate, h]

/-- Witness for C1: a request with no authorization header at all. -/
theorem C1_missing_header_challenge_witness :
    (authenticate (U := Nat) (I := Nat) {} {} {} {}).action =
      .fail (.challenge "Negotiate") ∧
    (authenticate (U := Nat) (I := Nat) {} {} {} {}).initCalled = false ∧
    (authenticate (U := Nat) (I := Nat) {} {} {} {}).stepCalled = false ∧
    (authenticate (U := Nat) (I := Nat) {} {} {} {}).verifyCalled = false :=
  C1_missing_header_challenge {} {} {} {} (Or.inl rfl)

/-- Claim C2: on a present, nonempty authorization header that either lacks
the case-sensitive `"Negotiate "` prefix or whose token after the prefix
begins with `"TlR"`, the terminal action is an error whose message contains
the offending value (the literal original header, respectively a reference to
NTLM), and `kerberos.initializeServer` is never invoked. -/
theorem C2_malformed_or_ntlm_error {U I : Type} (cfg : StrategyConfig)
    (req : Request) (options : AuthOptions) (env : Env U I) (a : String)
    (ha : req.authorization = some a) (hne : a ≠ "")
    (hbad : ¬ (strStartsWith a "Negotiate " = true) ∨
      (strStartsWith (a.drop ("Negotiate ".length)) "TlR" = true)) :
    (authenticate cfg req options env).initCalled = false ∧
    (¬ (strStartsWith a "Negotiate " = true) →
      (authenticate cfg req options env).action =
        .error ("Malformed authentication token: " ++ a) ∧
      strContainsSubstr ("Malformed authentication token: " ++ a) a) ∧
    (strStartsWith a "Negotiate " = true →
      (authenticate cfg req options env).action =
        .error ("Client sent NTLM header: " ++ a.drop ("Negotiate ".length)) ∧
      strContainsSubstr ("Client sent NTLM header: " ++ a.drop ("Negotiate ".length)) "NTLM") := by
  rcases hbad with h | h
  · refine ⟨?_, fun _ => ⟨?_, strContains_suffix _ _⟩, fun hp => absurd hp h⟩ <;>
      simp [authenticate, ha, hne, h]
  · by_cases hp : strStartsWith a "Negotiate " = true
    · refine ⟨?_, fun hn => absurd hp hn, fun _ => ⟨?_, ?_⟩⟩
      · simp [authenticate, ha, hne, hp, h]
      · simp [authenticate, ha, hne, hp, h]
      · have heq : ("Client sent NTLM header: " : String) ++ a.drop ("Negotiate ".length) =
            "Client sent " ++ "NTLM" ++ (" header: " ++ a.drop ("Negotiate ".length)) := by
          simp [← String.append_assoc]
        rw [heq]
        have := strContains_middle "Client sent " "NTLM"
          (" header: " ++ a.drop ("Negotiate ".length))
        simpa [← String.append_assoc] using this
    · refine ⟨?_, fun _ => ⟨?_, strContains_suffix _ _⟩, fun hpp => absurd hpp hp⟩ <;>
        simp [authenticate, ha, hne, hp]

/-- Witness for C2: the malformed header `"Basic x"`. -/
theorem C2_malformed_or_ntlm_error_witness :
    (authenticate (U := Nat) (I := Nat) {} { authorization := some "Basic x" } {} {}).initCalled
      = false ∧
    (authenticate (U := Nat) (I := Nat) {} { authorization := some "Basic x" } {} {}).action =
      .error "Malformed authentication token: Basic x" ∧
    strContainsSubstr "Malformed authentication token: Basic x" "Basic x" :=
  ⟨(C2_malformed_or_ntlm_error (U := Nat) (I := Nat) {} { authorization := some "Basic x" } {} {} "Basic x"
      rfl (by decide) (Or.inl (by decide))).1,
   ((C2_malformed_or_ntlm_error (U := Nat) (I := Nat) {} { authorization := some "Basic x" } {} {} "Basic x"
      rfl (by decide) (Or.inl (by decide))).2.1 (by decide)).1,
   ((C2_malformed_or_ntlm_error (U := Nat) (I := Nat) {} { authorization := some "Basic x" } {} {} "Basic x"
      rfl (by decide) (Or.inl (by decide))).2.1 (by decide)).2⟩

/-- Claim C3 counterexample: when credential initialization fails with cause
`"boom"`, the terminal action is `error "boom"`; its payload is not a string
embedding the step label `"init"`, contrary to the claim that the action
carries the step name and cause formatted as a single string. -/
theorem C3_error_payload_counterexample :
    (authenticate (U := Nat) (I := Nat) {}
        { authorization := some "Negotiate abc" } {}
        { initErr := some "boom" }).action = .error "boom" ∧
    ¬ ∃ msg, (authenticate (U := Nat) (I := Nat) {}
        { authorization := some "Negotiate abc" } {}
        { initErr := some "boom" }).action = .error msg ∧
      strContainsSubstr msg "init" := by
  have hact : (authenticate (U := Nat) (I := Nat) {}
      { authorization := some "Negotiate abc" } {}
      { initErr := some "boom" }).action = .error "boom" := by
    rw [authenticate_initFail _ _ _ _ "Negotiate abc" "boom" rfl (by decide)
      (by decide) (by decide) rfl]
  refine ⟨hact, ?_⟩
  rintro ⟨msg, hmsg, hsub⟩
  rw [hact] at hmsg
  have hm : msg = "boom" := (Action.error.inj hmsg).symm
  rw [hm] at hsub
  exact absurd hsub (by decide)

/-- Claim C3 as amended: when the GSSAPI engine fails at credential
initialization or at the accept-token step, the terminal action is an error
carrying the underlying cause alone, while a single string embedding the
failing step's label (`init` or `step`) and the cause is emitted to the
console log rather than carried in the action payload. -/
theorem C3_step_failure_error_and_log {U I : Type} (cfg : StrategyConfig)
    (req : Request) (options : AuthOptions) (env : Env U I) (a e : String)
    (ha : req.authorization = some a) (hne : a ≠ "")
    (hpre : strStartsWith a "Negotiate " = true)
    (hnt : strStartsWith (a.drop ("Negotiate ".length)) "TlR" = false)
    (hfail : env.initErr = some e ∨ (env.initErr = none ∧ env.stepErr = some e)) :
    (authenticate cfg req options env).action = .error e ∧
    (env.initErr = some e → failMsg "init" e ∈ (authenticate cfg req options env).logs) ∧
    (env.initErr = none → failMsg "step" e ∈ (authenticate cfg req options env).logs) ∧
    strContainsSubstr (failMsg "init" e) "init" ∧
    strContainsSubstr (failMsg "init" e) e ∧
    strContainsSubstr (failMsg "step" e) "step" ∧
    strContainsSubstr (failMsg "step" e) e := by
  rcases hfail with h | ⟨h1, h2⟩
  · rw [authenticate_initFail cfg req options env a e ha hne hpre hnt h]
    refine ⟨rfl, fun _ => by simp, fun hn => ?_, failMsg_contains_step _ _,
      failMsg_contains_err _ _, failMsg_contains_step _ _, failMsg_contains_err _ _⟩
    rw [h] at hn
    exact Option.noConfusion hn
  · rw [authenticate_stepFail cfg req options env a e ha hne hpre hnt h1 h2]
    refine ⟨rfl, fun hs => ?_, fun _ => by simp, failMsg_contains_step _ _,
      failMsg_contains_err _ _, failMsg_contains_step _ _, failMsg_contains_err _ _⟩
    rw [h1] at hs
    exact Option.noConfusion hs

/-- Witness for the amended C3: initialization fails with cause `"boom"`. -/
theorem C3_step_failure_error_and_log_witness :
    (authenticate (U := Nat) (I := Nat) {}
        { authorization := some "Negotiate abc" } {}
        { initErr := some "boom" }).action = .error "boom" ∧
    failMsg "init" "boom" ∈ (authenticate (U := Nat) (I := Nat) {}
        { authorization := some "Negotiate abc" } {}
        { initErr := some "boom" }).logs ∧
    strContainsSubstr (failMsg "init" "boom") "init" ∧
    strContainsSubstr (failMsg "init" "boom") "boom" :=
  ⟨(C3_step_failure_error_and_log (U := Nat) (I := Nat) {}
      { authorization := some "Negotiate abc" } {} { initErr := some "boom" }
      "Negotiate abc" "boom" rfl (by decide) (by decide) (by decide) (Or.inl rfl)).1,
   (C3_step_failure_error_and_log (U := Nat) (I := Nat) {}
      { authorization := some "Negotiate abc" } {} { initErr := some "boom" }
      "Negotiate abc" "boom" rfl (by decide) (by decide) (by decide) (Or.inl rfl)).2.1 rfl,
   (C3_step_failure_error_and_log (U := Nat) (I := Nat) {}
      { authorization := some "Negotiate abc" } {} { initErr := some "boom" }
      "Negotiate abc" "boom" rfl (by decide) (by decide) (by decide) (Or.inl rfl)).2.2.2.1,
   (C3_step_failure_error_and_log (U := Nat) (I := Nat) {}
      { authorization := some "Negotiate abc" } {} { initErr := some "boom" }
      "Negotiate abc" "boom" rfl (by decide) (by decide) (by decide) (Or.inl rfl)).2.2.2.2.1⟩

/-- Claim C4: on a negotiation failure the accept-token step is never
attempted after an initialization failure, the verify callback is never
invoked, and the request (including its session and scratch attributes) is
left unchanged. -/
theorem C4_failure_leaves_request_unchanged {U I : Type} (cfg : StrategyConfig)
    (req : Request) (options : AuthOptions) (env : Env U I) (a : String)
    (ha : req.authorization = some a) (hne : a ≠ "")
    (hpre : strStartsWith a "Negotiate " = true)
    (hnt : strStartsWith (a.drop ("Negotiate ".length)) "TlR" = false)
    (hfail : env.initErr ≠ none ∨ env.stepErr ≠ none) :
    (authenticate cfg req options env).req = req ∧
    (env.initErr ≠ none → (authenticate cfg req options env).stepCalled = false) ∧
    (authenticate cfg req options env).verifyCalled = false := by
  rcases hi : env.initErr with _ | e
  · rcases hs : env.stepErr with _ | e
    · rcases hfail with h | h
      · exact absurd hi h
      · exact absurd hs h
    · rw [authenticate_stepFail cfg req options env a e ha hne hpre hnt hi hs]
      exact ⟨rfl, fun hc => absurd rfl hc, rfl⟩
  · rw [authenticate_initFail cfg req options env a e ha hne hpre hnt hi]
    exact ⟨rfl, fun _ => rfl, rfl⟩

/-- Witness for C4: initialization fails with `"boom"` on a request carrying
a session; nothing is written and step and verify are never reached. -/
theorem C4_failure_leaves_request_unchanged_witness :
    (authenticate (U := Nat) (I := Nat) {}
        { authorization := some "Negotiate abc", session := some {} } {}
        { initErr := some "boom" }).req =
      { authorization := some "Negotiate abc", session := some {} } ∧
    (authenticate (U := Nat) (I := Nat) {}
        { authorization := some "Negotiate abc", session := some {} } {}
        { initErr := some "boom" }).stepCalled = false ∧
    (authenticate (U := Nat) (I := Nat) {}
        { authorization := some "Negotiate abc", session := some {} } {}
        { initErr := some "boom" }).verifyCalled = false :=
  ⟨(C4_failure_leaves_request_unchanged (U := Nat) (I := Nat) {}
      { authorization := some "Negotiate abc", session := some {} } {}
      { initErr := some "boom" } "Negotiate abc" rfl (by decide) (by decide) (by decide)
      (Or.inl (by decide))).1,
   (C4_failure_leaves_request_unchanged (U := Nat) (I := Nat) {}
      { authorization := some "Negotiate abc", session := some {} } {}
      { initErr := some "boom" } "Negotiate abc" rfl (by decide) (by decide) (by decide)
      (Or.inl (by decide))).2.1 (by decide),
   (C4_failure_leaves_request_unchanged (U := Nat) (I := Nat) {}
      { authorization := some "Negotiate abc", session := some {} } {}
      { initErr := some "boom" } "Negotiate abc" rfl (by decide) (by decide) (by decide)
      (Or.inl (by decide))).2.2⟩

/-- Claim C5: when negotiation succeeds and the verify callback reports no
error and no user, the terminal action is a redirect to the configured
`noUserRedirect` value when one is present, and otherwise a `fail` carrying a
`NoUserError` holding the authenticated principal. -/
theorem C5_no_user_redirect_or_fail {U I : Type} (cfg : StrategyConfig)
    (req : Request) (options : AuthOptions) (env : Env U I) (a : String)
    (ha : req.authorization = some a) (hne : a ≠ "")
    (hpre : strStartsWith a "Negotiate " = true)
    (hnt : strStartsWith (a.drop ("Negotiate ".length)) "TlR" = false)
    (hinit : env.initErr = none) (hstep : env.stepErr = none)
    (hvo : env.verifyOutcome = .noUser) :
    (authenticate cfg req options env).action =
      (match options.noUserRedirect with
       | some url => .redirect url
       | none => .fail (.noUser ⟨env.serverUsername⟩)) := by
  rcases hr : options.noUserRedirect with _ | url <;>
    simp [authenticate, ha, hne, hpre, hnt, hinit, hstep, hvo, hr]

/-- Witness for C5: with `noUserRedirect = "/needs-account"` the action is
that redirect; with no redirect option it is a principal-carrying failure. -/
theorem C5_no_user_redirect_or_fail_witness :
    (authenticate (U := Nat) (I := Nat) {} { authorization := some "Negotiate abc" }
        { noUserRedirect := some "/needs-account" }
        { serverUsername := "user@REALM" }).action = .redirect "/needs-account" ∧
    (authenticate (U := Nat) (I := Nat) {} { authorization := some "Negotiate abc" } {}
        { serverUsername := "user@REALM" }).action =
      .fail (.noUser ⟨"user@REALM"⟩) :=
  ⟨C5_no_user_redirect_or_fail (U := Nat) (I := Nat) {}
      { authorization := some "Negotiate abc" } { noUserRedirect := some "/needs-account" }
      { serverUsername := "user@REALM" } "Negotiate abc"
      rfl (by decide) (by decide) (by decide) rfl rfl rfl,
   C5_no_user_redirect_or_fail (U := Nat) (I := Nat) {}
      { authorization := some "Negotiate abc" } {}
      { serverUsername := "user@REALM" } "Negotiate abc"
      rfl (by decide) (by decide) (by decide) rfl rfl rfl⟩

/-- Claim C6: when negotiation succeeds and the verify callback reports a
user with optional info, the terminal action is success with exactly that
user and info, and the request's authenticated-principal attribute equals
the principal returned by the engine. -/
theorem C6_success_user_and_principal {U I : Type} (cfg : StrategyConfig)
    (req : Request) (options : AuthOptions) (env : Env U I) (a : String)
    (u : U) (info : Option I)
    (ha : req.authorization = some a) (hne : a ≠ "")
    (hpre : strStartsWith a "Negotiate " = true)
    (hnt : strStartsWith (a.drop ("Negotiate ".length)) "TlR" = false)
    (hinit : env.initErr = none) (hstep : env.stepErr = none)
    (hvo : env.verifyOutcome = .user u info) :
    (authenticate cfg req options env).action = .success u info ∧
    (authenticate cfg req options env).req.authenticatedPrincipal =
      some env.serverUsername := by
  constructor <;> by_cases hd : cfg.enableConstrainedDelegation <;>
    simp [authenticate, ha, hne, hpre, hnt, hinit, hstep, hvo, hd]

/-- Witness for C6: verify reports user `1` with info `2`; the action is
`success 1 (some 2)` and the principal attribute is the negotiated one. -/
theorem C6_success_user_and_principal_witness :
    (authenticate (U := Nat) (I := Nat) {} { authorization := some "Negotiate abc" } {}
        { serverUsername := "user@REALM", verifyOutcome := .user 1 (some 2) }).action =
      .success 1 (some 2) ∧
    (authenticate (U := Nat) (I := Nat) {} { authorization := some "Negotiate abc" } {}
        { serverUsername := "user@REALM",
          verifyOutcome := .user 1 (some 2) }).req.authenticatedPrincipal =
      some "user@REALM" :=
  C6_success_user_and_principal (U := Nat) (I := Nat) {}
    { authorization := some "Negotiate abc" } {}
    { serverUsername := "user@REALM", verifyOutcome := .user 1 (some 2) }
    "Negotiate abc" 1 (some 2) rfl (by decide) (by decide) (by decide) rfl rfl rfl

/-- Claim C7: on every successful negotiation the request-scratch principal
attribute is set, and the session principal attribute is written exactly when
a session object is present on the request; absence of a session does not
prevent the scratch attribute from being set (the embedding is total, so no
exception can be raised). -/
theorem C7_session_written_iff_present {U I : Type} (cfg : StrategyConfig)
    (req : Request) (options : AuthOptions) (env : Env U I) (a : String)
    (ha : req.authorization = some a) (hne : a ≠ "")
    (hpre : strStartsWith a "Negotiate " = true)
    (hnt : strStartsWith (a.drop ("Negotiate ".length)) "TlR" = false)
    (hinit : env.initErr = none) (hstep : env.stepErr = none) :
    (authenticate cfg req options env).req.authenticatedPrincipal =
      some env.serverUsername ∧
    (req.session = none → (authenticate cfg req options env).req.session = none) ∧
    (req.session.isSome = true →
      ((authenticate cfg req options env).req.session.map Session.authenticatedPrincipal) =
        some (some env.serverUsername)) := by
  refine ⟨?_, ?_, ?_⟩ <;>
    cases hvo : env.verifyOutcome <;>
    rcases hr : options.noUserRedirect with _ | url <;>
    by_cases hd : cfg.enableConstrainedDelegation <;>
    rcases hsess : req.session with _ | s <;>
    simp [authenticate, ha, hne, hpre, hnt, hinit, hstep, hvo, hr, hd, hsess]

/-- Witness for C7: a request without a session still gets the scratch
principal; a request with a session gets the session principal too. -/
theorem C7_session_written_iff_present_witness :
    (authenticate (U := Nat) (I := Nat) {} { authorization := some "Negotiate abc" } {}
        { serverUsername := "user@REALM" }).req.authenticatedPrincipal =
      some "user@REALM" ∧
    (authenticate (U := Nat) (I := Nat) {} { authorization := some "Negotiate abc" } {}
        { serverUsername := "user@REALM" }).req.session = none ∧
    ((authenticate (U := Nat) (I := Nat) {}
        { authorization := some "Negotiate abc", session := some {} } {}
        { serverUsername := "user@REALM" }).req.session.map Session.authenticatedPrincipal) =
      some (some "user@REALM") :=
  ⟨(C7_session_written_iff_present (U := Nat) (I := Nat) {}
      { authorization := some "Negotiate abc" } {} { serverUsername := "user@REALM" }
      "Negotiate abc" rfl (by decide) (by decide) (by decide) rfl rfl).1,
   (C7_session_written_iff_present (U := Nat) (I := Nat) {}
      { authorization := some "Negotiate abc" } {} { serverUsername := "user@REALM" }
      "Negotiate abc" rfl (by decide) (by decide) (by decide) rfl rfl).2.1 rfl,
   (C7_session_written_iff_present (U := Nat) (I := Nat) {}
      { authorization := some "Negotiate abc", session := some {} } {}
      { serverUsername := "user@REALM" }
      "Negotiate abc" rfl (by decide) (by decide) (by decide) rfl rfl).2.2 rfl⟩

/-- Claim C8: on every successful negotiation, when constrained delegation is
enabled the request and (if a session exists) the session delegation-cache
attributes equal the cache name the engine produced; when it is disabled
neither attribute is changed, even if the engine produced a cache name. -/
theorem C8_delegation_cache_attributes {U I : Type} (cfg : StrategyConfig)
    (req : Request) (options : AuthOptions) (env : Env U I) (a : String)
    (ha : req.authorization = some a) (hne : a ≠ "")
    (hpre : strStartsWith a "Negotiate " = true)
    (hnt : strStartsWith (a.drop ("Negotiate ".length)) "TlR" = false)
    (hinit : env.initErr = none) (hstep : env.stepErr = none) :
    (cfg.enableConstrainedDelegation = true →
      (authenticate cfg req options env).req.delegatedCredentialsCache =
        env.serverDelegCache ∧
      (req.session.isSome = true →
        ((authenticate cfg req options env).req.session.map Session.delegatedCredentialsCache) =
          some env.serverDelegCache)) ∧
    (cfg.enableConstrainedDelegation = false →
      (authenticate cfg req options env).req.delegatedCredentialsCache =
        req.delegatedCredentialsCache ∧
      ((authenticate cfg req options env).req.session.map Session.delegatedCredentialsCache) =
        req.session.map Session.delegatedCredentialsCache) := by
  constructor <;> intro hd <;> refine ⟨?_, ?_⟩ <;>
    cases hvo : env.verifyOutcome <;>
    rcases hr : options.noUserRedirect with _ | url <;>
    rcases hsess : req.session with _ | s <;>
    simp [authenticate, ha, hne, hpre, hnt, hinit, hstep, hvo, hr, hd, hsess]

/-- Witness for C8: delegation enabled with engine cache `"krb5cc_tmp123"`
fills both attributes; delegation disabled leaves both untouched even though
the engine produced a cache name. -/
theorem C8_delegation_cache_attributes_witness :
    (authenticate (U := Nat) (I := Nat) { enableConstrainedDelegation := true }
        { authorization := some "Negotiate abc", session := some {} } {}
        { serverUsername := "user@REALM",
          serverDelegCache := some "krb5cc_tmp123" }).req.delegatedCredentialsCache =
      some "krb5cc_tmp123" ∧
    ((authenticate (U := Nat) (I := Nat) { enableConstrainedDelegation := true }
        { authorization := some "Negotiate abc", session := some {} } {}
        { serverUsername := "user@REALM",
          serverDelegCache := some "krb5cc_tmp123" }).req.session.map
        Session.delegatedCredentialsCache) = some (some "krb5cc_tmp123") ∧
    (authenticate (U := Nat) (I := Nat) {}
        { authorization := some "Negotiate abc", session := some {} } {}
        { serverUsername := "user@REALM",
          serverDelegCache := some "krb5cc_tmp123" }).req.delegatedCredentialsCache = none ∧
    ((authenticate (U := Nat) (I := Nat) {}
        { authorization := some "Negotiate abc", session := some {} } {}
        { serverUsername := "user@REALM",
          serverDelegCache := some "krb5cc_tmp123" }).req.session.map
        Session.delegatedCredentialsCache) = some none :=
  ⟨((C8_delegation_cache_attributes (U := Nat) (I := Nat)
      { enableConstrainedDelegation := true }
      { authorization := some "Negotiate abc", session := some {} } {}
      { serverUsername := "user@REALM", serverDelegCache := some "krb5cc_tmp123" }
      "Negotiate abc" rfl (by decide) (by decide) (by decide) rfl rfl).1 rfl).1,
   ((C8_delegation_cache_attributes (U := Nat) (I := Nat)
      { enableConstrainedDelegation := true }
      { authorization := some "Negotiate abc", session := some {} } {}
      { serverUsername := "user@REALM", serverDelegCache := some "krb5cc_tmp123" }
      "Negotiate abc" rfl (by decide) (by decide) (by decide) rfl rfl).1 rfl).2 rfl,
   ((C8_delegation_cache_attributes (U := Nat) (I := Nat) {}
      { authorization := some "Negotiate abc", session := some {} } {}
      { serverUsername := "user@REALM", serverDelegCache := some "krb5cc_tmp123" }
      "Negotiate abc" rfl (by decide) (by decide) (by decide) rfl rfl).2 rfl).1,
   ((C8_delegation_cache_attributes (U := Nat) (I := Nat) {}
      { authorization := some "Negotiate abc", session := some {} } {}
      { serverUsername := "user@REALM", serverDelegCache := some "krb5cc_tmp123" }
      "Negotiate abc" rfl (by decide) (by decide) (by decide) rfl rfl).2 rfl).2⟩

/-- Claim C9: two authenticate runs identical except for the verbose flag
emit the same terminal action, perform the same request and session writes,
and invoke the same collaborators; verbosity only changes the console log. -/
theorem C9_verbose_is_observational {U I : Type} (cfg : StrategyConfig)
    (b₁ b₂ : Bool) (req : Request) (options : AuthOptions) (env : Env U I) :
    (authenticate { cfg with verbose := b₁ } req options env).action =
      (authenticate { cfg with verbose := b₂ } req options env).action ∧
    (authenticate { cfg with verbose := b₁ } req options env).req =
      (authenticate { cfg with verbose := b₂ } req options env).req ∧
    (authenticate { cfg with verbose := b₁ } req options env).initCalled =
      (authenticate { cfg with verbose := b₂ } req options env).initCalled ∧
    (authenticate { cfg with verbose := b₁ } req options env).stepCalled =
      (authenticate { cfg with verbose := b₂ } req options env).stepCalled ∧
    (authenticate { cfg with verbose := b₁ } req options env).verifyCalled =
      (authenticate { cfg with verbose := b₂ } req options env).verifyCalled := by
  rcases hauth : req.authorization with _ | a
  · simp [authenticate, hauth]
  · by_cases h1 : a = ""
    · simp [authenticate, hauth, h1]
    · by_cases h2 : strStartsWith a "Negotiate " = true
      · by_cases h3 : strStartsWith (a.drop ("Negotiate ".length)) "TlR" = true
        · simp [authenticate, hauth, h1, h2, h3]
        · rcases hi : env.initErr with _ | e
          · rcases hs : env.stepErr with _ | e
            · cases hvo : env.verifyOutcome <;>
                rcases hr : options.noUserRedirect with _ | url <;>
                simp [authenticate, hauth, h1, h2, h3, hi, hs, hvo, hr]
            · simp [authenticate, hauth, h1, h2, h3, hi, hs]
          · simp [authenticate, hauth, h1, h2, h3, hi]
      · simp [authenticate, hauth, h1, h2]

/-- Claim C10: the constructor fails with the required-verify error when
called with no arguments or with only an options object, and succeeds with
the supplied function as the verify callback and default options when its
sole argument is a function. -/
theorem C10_constructor_requires_verify (F : Type) :
    (strategyNew (F := F) .undefined .undefined =
      .error "negotiate authentication strategy requires a verify function") ∧
    (∀ o : StrategyConfig, strategyNew (F := F) (.obj o) .undefined =
      .error "negotiate authentication strategy requires a verify function") ∧
    (∀ f : F, strategyNew (.fn f) .undefined =
      .ok { name := "negotiate", verify := .fn f, config := {} }) :=
  ⟨rfl, fun _ => rfl, fun _ => rfl⟩

end PassportNegotiate
